import Mathlib

/-!
Verification development for a composable polymorphic-memory-resource
framework (src/Source.cpp).  The repository-authored component is the
`Tracker` decorator (a `std::pmr::memory_resource` wrapper); the other
resources it composes with (`null_memory_resource`,
`monotonic_buffer_resource`, `synchronized_pool_resource`, the default
resource registry, and allocator-aware container propagation) are
standard-library components that the repository only calls, so they are
modelled here from the specification's description of their behaviour.

Machine pointers and resource addresses are modelled as natural numbers;
allocation failure (`std::bad_alloc`) is an explicit result constructor.
-/

namespace PMR

/-- Result of an allocate call: either a pointer (modelled as an
address/offset in `Nat`) or the allocation-failure signal that the C++
code raises as `std::bad_alloc`. -/
inductive AllocResult where
  | ptr (p : Nat)
  | failure
deriving DecidableEq, Repr

/-- Whether an allocation result is a successful pointer. -/
def AllocResult.isPtr : AllocResult → Bool
  | .ptr _ => true
  | .failure => false

/-- Identity of a concrete resource instance (its address, used by the
`this == &other` test in `do_is_equal`). -/
abbrev ResourceId := Nat

/-- Kind of a constructed resource instance, as relevant to the dynamic
dispatch in `Tracker::do_is_equal` (src/Source.cpp:284-290): a `Tracker`
carries a tag (the C++ member named after the string it prints before
each line) and an upstream pointer; on every other resource kind of the
program `dynamic_cast<const Tracker*>` yields `nullptr` and the default
`memory_resource` identity comparison applies. -/
inductive ResKind where
  | identityRes
  | tracker (tag : String) (upstream : ResourceId)
deriving DecidableEq, Repr

/-- The constructed resource instances of a program run, indexed by
identity.  A tracker's upstream must already exist when the tracker is
constructed, so in a well-formed environment its index is smaller. -/
abbrev Env := List ResKind

/-- Well-formedness: every tracker's upstream was constructed before it. -/
def EnvWF (env : Env) : Prop :=
  ∀ i tag up, env.get? i = some (.tracker tag up) → up < i

/-- Fuelled evaluation of `memory_resource::is_equal`.  For a `Tracker`
instance this is a transliteration of `Tracker::do_is_equal`
(src/Source.cpp:284-290):

    if (this == &other) return true;
    auto op = dynamic_cast<const Tracker*>(&other);
    return op != nullptr && op->prefix == prefix
        && upstream->is_equal(other);

Note that the final conjunct compares the upstream against `other`
itself (the whole other resource), not against `op`'s upstream.  For
every non-tracker kind the default identity comparison applies.  The
fuel only bounds the recursion through upstream chains; `fuel = self + 1`
is exact for well-formed environments. -/
def isEqualFuel (env : Env) : Nat → ResourceId → ResourceId → Bool
  | 0, _, _ => false
  | fuel + 1, self, other =>
    if self = other then true
    else
      match env.get? self with
      | some (.tracker tag up) =>
        match env.get? other with
        | some (.tracker otherTag _) =>
          otherTag = tag && isEqualFuel env fuel up other
        | _ => false
      | _ => false

/-- The program's `is_equal` on constructed resources. -/
def is_equal (env : Env) (self other : ResourceId) : Bool :=
  isEqualFuel env (self + 1) self other

/-- Concrete environment: resource 0 is an identity-equality resource
(such as the default heap resource), and resources 1 and 2 are two
distinct `Tracker` instances, both tagged `"p"`, both wrapping
resource 0. -/
def twoTrackersEnv : Env :=
  [.identityRes, .tracker "p" 0, .tracker "p" 0]

/-- Per-instance state of the `Tracker` decorator (src/Source.cpp:252-267):
the non-owning upstream pointer and the tag string it prints before each
event line (the C++ member is named with the word Lean reserves for
notation commands, so it is called `tag` here). -/
structure Tracker where
  upstream : ResourceId
  tag : String
deriving DecidableEq, Repr

/-- The `Tracker` constructor taking only the optional upstream
(src/Source.cpp:260-263): the upstream argument defaults to
`std::pmr::get_default_resource()`, i.e. to the registry slot's value at
construction time, here passed in as `defaultRes`; `us = none` models a
call without an explicit upstream argument.  The tag defaults to the
empty string. -/
def Tracker.construct (defaultRes : ResourceId) (us : Option ResourceId) : Tracker :=
  { upstream := us.getD defaultRes, tag := "" }

/-- The `Tracker` constructor taking a tag and an optional upstream
(src/Source.cpp:265-268); the upstream argument again defaults to the
registry's current default resource. -/
def Tracker.constructTagged (defaultRes : ResourceId) (p : String)
    (us : Option ResourceId) : Tracker :=
  { upstream := us.getD defaultRes, tag := p }

/-- Transliteration of `Tracker::do_allocate` (src/Source.cpp:271-275):
print the tracking line to the sink, then call
`upstream->allocate(bytes, alignment)` and return its result unchanged.
`sem r bytes align` gives the behaviour of the virtual call
`r->allocate(bytes, align)`; the printed sink lines are returned
explicitly. -/
def Tracker.do_allocate (t : Tracker) (sem : ResourceId → Nat → Nat → AllocResult)
    (bytes align : Nat) : List String × AllocResult :=
  let ret := sem t.upstream bytes align
  ([t.tag ++ " allocate " ++ toString bytes ++ " Bytes\n"], ret)

/-- Transliteration of `Tracker::do_deallocate` (src/Source.cpp:277-280):
print the tracking line, then call
`upstream->deallocate(ptr, bytes, alignment)`.  The upstream deallocate
behaviour `dsem` may produce an arbitrary effect type, so proving the
forwarding equation for every `dsem` pins the forwarded resource and
arguments exactly. -/
def Tracker.do_deallocate {σ : Type} (t : Tracker)
    (dsem : ResourceId → Nat → Nat → Nat → σ) (p bytes align : Nat) :
    List String × σ :=
  ([t.tag ++ " deallocate " ++ toString bytes ++ " Bytes\n"],
   dsem t.upstream p bytes align)

/-- Modelled from the spec: the default-resource registry (§4.6) is a
single process-wide mutable slot; `get_default` reads it and
`set_default` swaps in a new handle, returning the previous one.
`std::pmr::get_default_resource` and `std::pmr::set_default_resource`
are standard-library code, not present under src/
(`reUsingMemoryPools`, src/Source.cpp:92-98, is only a caller). -/
abbrev RegistryState := ResourceId

/-- Modelled from the spec: read the registry's current default handle. -/
def get_default (s : RegistryState) : ResourceId := s

/-- Modelled from the spec: swap the registry slot to `h`, returning the
previously installed handle together with the new registry state. -/
def set_default (s : RegistryState) (h : ResourceId) : ResourceId × RegistryState :=
  (s, h)

/-- Modelled from the spec: an allocator-aware container (§4.7, §6)
captures a resource handle at construction, defaulting to the registry's
current default when none is given. -/
structure PmrContainer where
  handle : ResourceId
deriving DecidableEq, Repr

/-- Modelled from the spec: container construction with an optional
explicit handle; with `none` the registry's current default is captured. -/
def PmrContainer.construct (s : RegistryState) (h : Option ResourceId) : PmrContainer :=
  { handle := h.getD (get_default s) }

/-- Modelled from the spec: every backing-storage allocation of the
container goes through its captured handle. -/
def PmrContainer.allocate (c : PmrContainer)
    (sem : ResourceId → Nat → Nat → AllocResult) (bytes align : Nat) : AllocResult :=
  sem c.handle bytes align

/-- Modelled from the spec: `NullResource` allocate (§4.4) — every call
unconditionally signals the allocation-failure condition.
`std::pmr::null_memory_resource` is standard-library code, not present
under src/ (`exampleNMR`, src/Source.cpp:223-248, is only a caller). -/
def nullAllocate (bytes align : Nat) : AllocResult := .failure

/-- Modelled from the spec: `NullResource` deallocate is a no-op for any
state it could act on. -/
def nullDeallocate {σ : Type} (s : σ) (p bytes align : Nat) : σ := s

/-- Round an offset up to the next multiple of the alignment, expressed
as adding the padding `(a - off % a) % a`; for `a = 0` (never produced by
the program, where alignments are powers of two) it leaves the offset
unchanged. -/
def alignUp (off a : Nat) : Nat := off + (a - off % a) % a

/-- A call made by a resource to its upstream resource. -/
inductive UpCall where
  | alloc (bytes align : Nat)
  | dealloc (bytes align : Nat)
deriving DecidableEq, Repr

/-- Whether an upstream call is an allocation request. -/
def UpCall.isAlloc : UpCall → Bool
  | .alloc _ _ => true
  | .dealloc _ _ => false

/-- Modelled from the spec: `ArenaResource` state (§4.2) — the current
buffer as `{capacity, offset}` (the buffer base is taken as address 0),
plus the sizes and alignments of the chunks the arena has requested from
upstream, which it owns and releases only on its own destruction or
reset.  `std::pmr::monotonic_buffer_resource` is standard-library code,
not present under src/ (`skipDeallocations`, `chainMemRes` and
`exampleNMR`, src/Source.cpp:184-248, are only callers). -/
structure ArenaState where
  capacity : Nat
  offset : Nat
  chunks : List (Nat × Nat)
deriving DecidableEq, Repr

/-- Modelled from the spec: arena allocate (§4.2) — round the offset up
for the alignment; if the block fits in the remaining capacity, carve it
out and advance the offset; otherwise request a new chunk from upstream
sized `max n (2 * capacity)` (the doubling growth policy), abandon the
exhausted buffer, record the chunk as owned, and carve the block from the
new chunk.  `up` is the upstream's allocate behaviour; the returned list
records the calls made to upstream. -/
def arenaAllocate (up : Nat → Nat → AllocResult) (s : ArenaState) (n a : Nat) :
    AllocResult × ArenaState × List UpCall :=
  let aligned := alignUp s.offset a
  if aligned + n ≤ s.capacity then
    (.ptr aligned, { s with offset := aligned + n }, [])
  else
    let sz := max n (2 * s.capacity)
    match up sz a with
    | .ptr _ =>
      (.ptr 0, { capacity := sz, offset := n, chunks := (sz, a) :: s.chunks },
       [.alloc sz a])
    | .failure => (.failure, s, [.alloc sz a])

/-- Modelled from the spec: arena deallocate (§4.2) is always a no-op —
no state component changes and no call reaches upstream. -/
def arenaDeallocate (s : ArenaState) (p n a : Nat) : ArenaState × List UpCall :=
  (s, [])

/-- Modelled from the spec: destroying or resetting the arena returns
every chunk it requested from upstream via upstream's deallocate. -/
def arenaDestroy (s : ArenaState) : List UpCall :=
  s.chunks.map (fun c => .dealloc c.1 c.2)

/-- An operation invoked on an arena by its clients. -/
inductive ArenaOp where
  | alloc (n a : Nat)
  | dealloc (p n a : Nat)
deriving DecidableEq, Repr

/-- One client call on the arena, returning the next state and the calls
made to upstream. -/
def arenaStep (up : Nat → Nat → AllocResult) (s : ArenaState) :
    ArenaOp → ArenaState × List UpCall
  | .alloc n a => ((arenaAllocate up s n a).2.1, (arenaAllocate up s n a).2.2)
  | .dealloc p n a => arenaDeallocate s p n a

/-- Run a sequence of client calls on the arena, collecting every call
made to upstream. -/
def arenaRun (up : Nat → Nat → AllocResult) :
    ArenaState → List ArenaOp → ArenaState × List UpCall
  | s, [] => (s, [])
  | s, op :: ops =>
    let r := arenaStep up s op
    let rest := arenaRun up r.1 ops
    (rest.1, r.2 ++ rest.2)

/-- An allocation event observed while a container inserts elements:
which resource served it and how many bytes it was for. -/
structure AllocEvent where
  res : ResourceId
  bytes : Nat
deriving DecidableEq, Repr

/-- Modelled from the spec: element propagation (§4.7) — inserting one
element allocates the container's own backing storage through the
container's handle; the element's internal allocation goes through the
container's handle when the element type is resource-aware, and through
the element type's own baked-in strategy (`baked`, the global heap for
`std::string`) when it is not.  The scoped-allocator propagation
machinery of `std::pmr` containers is standard-library code, not present
under src/ (`aLittleBetterWithPmr` and `dontAllocateOnTheHeapAtAll`,
src/Source.cpp:22-71, are only callers). -/
def insertEvents (aware : Bool) (handle baked : ResourceId)
    (storageBytes elemBytes : Nat) : List AllocEvent :=
  [{ res := handle, bytes := storageBytes },
   { res := if aware then handle else baked, bytes := elemBytes }]

/-- Modelled from the spec: insert a list of elements (each with a
backing-storage byte count and an element-internal byte count),
collecting every allocation event. -/
def runInserts (aware : Bool) (handle baked : ResourceId) :
    List (Nat × Nat) → List AllocEvent
  | [] => []
  | req :: reqs =>
    insertEvents aware handle baked req.1 req.2 ++ runInserts aware handle baked reqs

/-- Modelled from the spec: the implementation-defined upper limit for
`max_blocks_per_chunk` (§4.3); a fixed model constant. -/
def implMaxBlocksLimit : Nat := 1048576

/-- Modelled from the spec: the implementation-defined upper limit for
`largest_pooled_block` (§4.3); a fixed model constant. -/
def implLargestBlockLimit : Nat := 4096

/-- Pool configuration as stored by a constructed pool resource. -/
structure PoolOptions where
  max_blocks_per_chunk : Nat
  largest_required_pool_block : Nat
deriving DecidableEq, Repr

/-- Modelled from the spec: a requested configuration value of zero or
above the implementation-defined limit is silently clamped to that
limit (§4.3, §7). -/
def clampToLimit (req limit : Nat) : Nat :=
  if req = 0 ∨ limit < req then limit else req

/-- Modelled from the spec: pool construction stores the clamped
configuration; it is total, so an out-of-range request is not an error.
`std::pmr::synchronized_pool_resource` is standard-library code, not
present under src/ (`betterExampleSyncPool`, src/Source.cpp:143-178,
only reads the active values). -/
def mkPoolOptions (req : PoolOptions) : PoolOptions :=
  { max_blocks_per_chunk := clampToLimit req.max_blocks_per_chunk implMaxBlocksLimit,
    largest_required_pool_block :=
      clampToLimit req.largest_required_pool_block implLargestBlockLimit }

/-- Modelled from the spec: read-only introspection of the active
largest-pooled-block threshold (§4.3, §6). -/
def largest_pooled_block (p : PoolOptions) : Nat := p.largest_required_pool_block

/-- Modelled from the spec: read-only introspection of the active
max-blocks-per-chunk value (§4.3, §6). -/
def max_blocks_per_chunk_val (p : PoolOptions) : Nat := p.max_blocks_per_chunk

/-- An offset never decreases when rounded up for an alignment. -/
theorem le_alignUp (off a : Nat) : off ≤ alignUp off a :=
  Nat.le_add_right _ _

/-- Every call an arena step makes to its upstream is an allocation
request; deallocate steps make none, and allocate steps at most request a
new chunk. -/
theorem arenaStep_calls_all_alloc (up : Nat → Nat → AllocResult) (s : ArenaState)
    (op : ArenaOp) : (arenaStep up s op).2.all UpCall.isAlloc = true := by
  cases op with
  | dealloc p n a => rfl
  | alloc n a =>
    simp only [arenaStep, arenaAllocate]
    split
    · rfl
    · split <;> rfl

/-- C1: counter-evidence against the claim, evaluated on the code.  In
`twoTrackersEnv`, resources 1 and 2 are distinct `Tracker` instances
with identical tags whose upstreams (both the identity resource 0) are
`is_equal`; the claim requires `is_equal` to return `true`, but
`Tracker::do_is_equal` evaluates `upstream->is_equal(other)` against the
other tracker object itself — not against the other tracker's upstream —
so the code returns `false`. -/
theorem tracker_is_equal_diverges_at_equal_tags :
    twoTrackersEnv.get? 1 = some (.tracker "p" 0) ∧
    twoTrackersEnv.get? 2 = some (.tracker "p" 0) ∧
    (1 : ResourceId) ≠ 2 ∧
    is_equal twoTrackersEnv 0 0 = true ∧
    is_equal twoTrackersEnv 1 2 = false := by
  decide

/-- C2: for every upstream behaviour, `Tracker::do_allocate` and
`Tracker::do_deallocate` record exactly one event line (tag, byte count
and direction) and forward the call to the captured upstream with the
arguments unchanged, returning exactly what upstream returns — in
particular an upstream allocation failure is propagated unchanged. -/
theorem tracker_records_then_forwards {σ : Type} (t : Tracker)
    (sem : ResourceId → Nat → Nat → AllocResult)
    (dsem : ResourceId → Nat → Nat → Nat → σ) (p bytes align : Nat) :
    t.do_allocate sem bytes align
      = ([t.tag ++ " allocate " ++ toString bytes ++ " Bytes\n"],
         sem t.upstream bytes align) ∧
    t.do_deallocate dsem p bytes align
      = ([t.tag ++ " deallocate " ++ toString bytes ++ " Bytes\n"],
         dsem t.upstream p bytes align) :=
  ⟨rfl, rfl⟩

/-- C3: the null resource's allocate signals the allocation-failure
condition for every size and alignment — no allocate ever succeeds — and
its deallocate leaves any state untouched. -/
theorem null_resource_always_fails_and_dealloc_noop {σ : Type}
    (s : σ) (p bytes align : Nat) :
    nullAllocate bytes align = .failure ∧
    (nullAllocate bytes align).isPtr = false ∧
    nullDeallocate s p bytes align = s :=
  ⟨rfl, rfl, rfl⟩

/-- C4: over a fixed buffer with a null-resource upstream, an arena
allocate succeeds exactly when the alignment-adjusted cumulative demand
fits the capacity (advancing the offset by the aligned demand), and
signals allocation-failure — leaving the state unchanged — on exactly
the first call that would exceed it; concretely, with a 64-byte buffer a
40-byte allocation succeeds and a following 30-byte one fails, and with
exactly 24 bytes remaining one more 24-byte 1-aligned allocation
succeeds after which every positive-size request fails. -/
theorem arena_null_upstream_boundary :
    (∀ s n a, ((arenaAllocate nullAllocate s n a).1.isPtr = true
        ↔ alignUp s.offset a + n ≤ s.capacity)) ∧
    (∀ s n a, alignUp s.offset a + n ≤ s.capacity →
        arenaAllocate nullAllocate s n a
          = (.ptr (alignUp s.offset a), { s with offset := alignUp s.offset a + n }, [])) ∧
    (∀ s n a, ¬ alignUp s.offset a + n ≤ s.capacity →
        arenaAllocate nullAllocate s n a
          = (.failure, s, [.alloc (max n (2 * s.capacity)) a])) ∧
    ((arenaAllocate nullAllocate { capacity := 64, offset := 0, chunks := [] } 40 1).1.isPtr
        = true) ∧
    ((arenaAllocate nullAllocate { capacity := 64, offset := 40, chunks := [] } 30 1).1
        = .failure) ∧
    (arenaAllocate nullAllocate { capacity := 64, offset := 40, chunks := [] } 24 1
        = (.ptr 40, { capacity := 64, offset := 64, chunks := [] }, [])) ∧
    (∀ n a, 0 < n →
        (arenaAllocate nullAllocate { capacity := 64, offset := 64, chunks := [] } n a).1
          = .failure) := by
  refine ⟨?_, ?_, ?_, by decide, by decide, by decide, ?_⟩
  · intro s n a
    by_cases h : alignUp s.offset a + n ≤ s.capacity
    · simp [arenaAllocate, nullAllocate, h, AllocResult.isPtr]
    · simp [arenaAllocate, nullAllocate, h, AllocResult.isPtr]
  · intro s n a h
    simp [arenaAllocate, h]
  · intro s n a h
    simp [arenaAllocate, nullAllocate, h]
  · intro n a hn
    have h1 : (64 : Nat) ≤ alignUp 64 a := le_alignUp 64 a
    have h2 : ¬ (alignUp 64 a + n ≤ 64) := by omega
    simp [arenaAllocate, nullAllocate, h2]

/-- C4 witness: applying the boundary theorem at the full 64-byte arena
and a concrete 8-byte request. -/
theorem arena_null_upstream_boundary_witness :
    (arenaAllocate nullAllocate { capacity := 64, offset := 64, chunks := [] } 8 1).1
      = AllocResult.failure :=
  arena_null_upstream_boundary.2.2.2.2.2.2 8 1 (by decide)

/-- C5: an arena deallocate is a no-op — the state (buffer, offset,
chunk list) is unchanged and no call reaches upstream; inserting a
deallocate anywhere in a run changes neither the final state nor the
upstream traffic; no run ever sends a deallocation upstream; and memory
is returned to upstream exactly when the arena is destroyed or reset,
which releases the chunks it owns. -/
theorem arena_deallocate_is_noop (up : Nat → Nat → AllocResult) (s : ArenaState)
    (p n a : Nat) (l1 l2 : List ArenaOp) :
    arenaDeallocate s p n a = (s, []) ∧
    arenaRun up s (l1 ++ ArenaOp.dealloc p n a :: l2) = arenaRun up s (l1 ++ l2) ∧
    (arenaRun up s (l1 ++ l2)).2.all UpCall.isAlloc = true ∧
    arenaDestroy s = s.chunks.map (fun c => UpCall.dealloc c.1 c.2) := by
  refine ⟨rfl, ?_, ?_, rfl⟩
  · induction l1 generalizing s with
    | nil => simp [arenaRun, arenaStep, arenaDeallocate]
    | cons op l1 ih =>
      simp only [List.cons_append, arenaRun, List.append_eq]
      rw [ih]
  · generalize l1 ++ l2 = ops
    induction ops generalizing s with
    | nil => rfl
    | cons op ops ih =>
      simp only [arenaRun, List.all_append, Bool.and_eq_true]
      exact ⟨arenaStep_calls_all_alloc up s op, ih _⟩

/-- C6: `set_default` swaps the registry slot and returns the previously
installed handle — `set_default A` then `set_default B` returns `A` —
and a container constructed between the two swaps captures `A` and keeps
allocating through `A` even after the default has become `B`. -/
theorem registry_swap_returns_previous_and_capture_persists
    (s0 : RegistryState) (A B : ResourceId)
    (sem : ResourceId → Nat → Nat → AllocResult) (bytes align : Nat) :
    (set_default (set_default s0 A).2 B).1 = A ∧
    (PmrContainer.construct (set_default s0 A).2 none).handle = A ∧
    get_default (set_default (set_default s0 A).2 B).2 = B ∧
    (PmrContainer.construct (set_default s0 A).2 none).allocate sem bytes align
      = sem A bytes align :=
  ⟨rfl, rfl, rfl, rfl⟩

/-- C7: when the element type is resource-aware, every allocation event
of a run of insertions is served by the container's handle — in
particular, when the handle differs from the heap, the run performs zero
heap allocations — and when the element type is not resource-aware, the
handle is not propagated: the element-internal allocation is served by
the element's own baked-in strategy. -/
theorem container_propagates_handle_to_aware_elements :
    (∀ handle baked reqs,
      (runInserts true handle baked reqs).all (fun e => e.res == handle) = true) ∧
    (∀ handle baked reqs, handle ≠ baked →
      (runInserts true handle baked reqs).countP (fun e => e.res == baked) = 0) ∧
    (∀ handle baked sb eb,
      insertEvents false handle baked sb eb
        = [{ res := handle, bytes := sb }, { res := baked, bytes := eb }]) := by
  refine ⟨?_, ?_, ?_⟩
  · intro handle baked reqs
    induction reqs with
    | nil => rfl
    | cons req reqs ih =>
      simp [runInserts, insertEvents, List.all_append, ih]
  · intro handle baked reqs h
    induction reqs with
    | nil => rfl
    | cons req reqs ih =>
      simp [runInserts, insertEvents, List.countP_append, List.countP_cons, h, ih,
        Ne.symm h]
  · intro handle baked sb eb
    rfl

/-- C7 witness: two insertions through handle 1 with the heap as
resource 0 perform zero heap allocations. -/
theorem container_propagates_handle_to_aware_elements_witness :
    (runInserts true 1 0 [(16, 32), (16, 32)]).countP (fun e => e.res == 0) = 0 :=
  container_propagates_handle_to_aware_elements.2.1 1 0 [(16, 32), (16, 32)] (by decide)

/-- C8: pool construction is total — a requested configuration of zero
or above the implementation-defined limit is not an error but is clamped
to that limit — the stored active values are always positive and within
the limits, in-range requests pass through unchanged, and the active
values are exactly what the read-only introspection operations return. -/
theorem pool_options_clamped_and_introspectable :
    (∀ req, 0 < largest_pooled_block (mkPoolOptions req) ∧
            largest_pooled_block (mkPoolOptions req) ≤ implLargestBlockLimit ∧
            0 < max_blocks_per_chunk_val (mkPoolOptions req) ∧
            max_blocks_per_chunk_val (mkPoolOptions req) ≤ implMaxBlocksLimit) ∧
    (∀ req, req.largest_required_pool_block = 0 ∨
            implLargestBlockLimit < req.largest_required_pool_block →
            largest_pooled_block (mkPoolOptions req) = implLargestBlockLimit) ∧
    (∀ req, req.max_blocks_per_chunk = 0 ∨
            implMaxBlocksLimit < req.max_blocks_per_chunk →
            max_blocks_per_chunk_val (mkPoolOptions req) = implMaxBlocksLimit) ∧
    (∀ req, 0 < req.largest_required_pool_block →
            req.largest_required_pool_block ≤ implLargestBlockLimit →
            largest_pooled_block (mkPoolOptions req) = req.largest_required_pool_block) ∧
    (∀ req, 0 < req.max_blocks_per_chunk →
            req.max_blocks_per_chunk ≤ implMaxBlocksLimit →
            max_blocks_per_chunk_val (mkPoolOptions req) = req.max_blocks_per_chunk) := by
  have hval : ∀ req limit : Nat, 0 < limit →
      0 < clampToLimit req limit ∧ clampToLimit req limit ≤ limit := by
    intro req limit h
    unfold clampToLimit
    split <;> omega
  have hclamp : ∀ req limit : Nat, req = 0 ∨ limit < req →
      clampToLimit req limit = limit := by
    intro req limit h
    unfold clampToLimit
    split <;> omega
  have hpass : ∀ req limit : Nat, 0 < req → req ≤ limit →
      clampToLimit req limit = req := by
    intro req limit h1 h2
    unfold clampToLimit
    split <;> omega
  refine ⟨?_, ?_, ?_, ?_, ?_⟩
  · intro req
    refine ⟨(hval _ _ (by decide)).1, (hval _ _ (by decide)).2,
            (hval _ _ (by decide)).1, (hval _ _ (by decide)).2⟩
  · intro req h
    exact hclamp _ _ h
  · intro req h
    exact hclamp _ _ h
  · intro req h1 h2
    exact hpass _ _ h1 h2
  · intro req h1 h2
    exact hpass _ _ h1 h2

/-- C8 witness: a requested configuration of zero for both values is
clamped to the implementation-defined limits. -/
theorem pool_options_clamped_and_introspectable_witness :
    largest_pooled_block (mkPoolOptions
        { max_blocks_per_chunk := 0, largest_required_pool_block := 0 })
      = implLargestBlockLimit :=
  pool_options_clamped_and_introspectable.2.1
    { max_blocks_per_chunk := 0, largest_required_pool_block := 0 } (Or.inl rfl)

/-- C9: a Tracker constructed without an explicit upstream argument —
with either constructor, tagged or not — captures the registry's default
resource as read at construction time, and its forwarding targets that
captured upstream even after the registry default is swapped to another
resource. -/
theorem tracker_default_upstream_captured_at_construction
    (s0 : RegistryState) (dNew : ResourceId) (p : String)
    (sem : ResourceId → Nat → Nat → AllocResult) (bytes align : Nat) :
    (Tracker.construct (get_default s0) none).upstream = get_default s0 ∧
    (Tracker.constructTagged (get_default s0) p none).upstream = get_default s0 ∧
    get_default (set_default s0 dNew).2 = dNew ∧
    ((Tracker.construct (get_default s0) none).do_allocate sem bytes align).2
      = sem (get_default s0) bytes align ∧
    ((Tracker.constructTagged (get_default s0) p none).do_allocate sem bytes align).2
      = sem (get_default s0) bytes align :=
  ⟨rfl, rfl, rfl, rfl, rfl⟩

/-- C10: a Tracker's `is_equal` returns `false` on every resource that
is a different instance and not itself a Tracker — the `dynamic_cast`
yields null — regardless of the Tracker's tag or upstream. -/
theorem tracker_not_equal_to_non_tracker (env : Env) (self other : ResourceId)
    (tag : String) (up : ResourceId)
    (hself : env.get? self = some (.tracker tag up))
    (hne : self ≠ other)
    (hother : ∀ t u, env.get? other ≠ some (.tracker t u)) :
    is_equal env self other = false := by
  cases hoth : env.get? other with
  | none => simp only [is_equal, isEqualFuel, hself, if_neg hne, hoth]
  | some k =>
    cases k with
    | identityRes => simp only [is_equal, isEqualFuel, hself, if_neg hne, hoth]
    | tracker t u => exact absurd hoth (hother t u)

/-- C10 witness: a Tracker (resource 1) compared against the distinct
identity resource 0 it wraps. -/
theorem tracker_not_equal_to_non_tracker_witness :
    is_equal [ResKind.identityRes, ResKind.tracker "pool:" 0] 1 0 = false :=
  tracker_not_equal_to_non_tracker
    [ResKind.identityRes, ResKind.tracker "pool:" 0] 1 0 "pool:" 0 rfl (by decide)
    (fun t u h => ResKind.noConfusion (Option.some.inj h))

end PMR
